import Mathlib

/-!
Verification of the RescueX multi-hazard prediction engine
(`disaster_predictor.py`, `models.py`) against its specification.

Numbers are modelled by `ℚ` (exact decimal arithmetic).  `WeatherData` is the
pydantic model of `models.py`: it declares exactly the fields listed there,
with their defaults.  Pydantic (both v1 and v2, with no `Config` in the
model) silently drops extra constructor keyword arguments, so attributes such
as `precipitation_intensity`, `sea_surface_temp`, `underwater_quake`,
`consecutive_hot_days`, `urban_density`, `wind_shear`, `cape_value`,
`helicity`, `lifted_index`, `river_level_percent`, `upstream_precipitation`,
`vegetation_dryness` and `dry_lightning_probability` never exist on a
`WeatherData` object: `hasattr` is `False` for them, and a direct attribute
access raises `AttributeError`.  `predict_disasters` is therefore modelled as
an `Except String` computation: the two unguarded accesses (line 174,
`weather_data.precipitation_intensity`, reached when `precipitation > 30`;
line 238, `weather_data.sea_surface_temp`, reached when `wind_speed > 75 and
pressure < 980`) surface as `.error`.
-/

namespace RescueX

/-- `models.py` lines 4-25: the `WeatherData` pydantic model, with the
declared defaults.  These are the only attributes a `WeatherData` object
ever has. -/
structure WeatherData where
  temperature : ℚ := 0
  humidity : ℚ := 0
  precipitation : ℚ := 0
  wind_speed : ℚ := 0
  pressure : ℚ := 1013
  snow_depth : ℚ := 0
  temperature_gradient : ℚ := 0
  consecutive_dry_days : ℚ := 0
  soil_saturation : ℚ := 0
  temperature_change : ℚ := 0
  snow_fall : ℚ := 0
  air_quality_index : ℚ := 0
  seismic_activity : ℚ := 0
  coastal_proximity : ℚ := 9999
  volcanic_activity : ℚ := 0
  pressure_change : ℚ := 0
  cloud_height : ℚ := 10000
  dew_point : ℚ := 0
  stagnant_water_index : ℚ := 0
  urban_runoff_index : ℚ := 0
  temperature_profile : String := "normal"
deriving DecidableEq

/-- `models.py` lines 33-37: one hazard finding. -/
structure DisasterPrediction where
  disaster_type : String
  probability : ℚ
  severity : String
  description : String
deriving DecidableEq

/-- `disaster_predictor.py` lines 81-89: the per-family learning
coefficients, initialized to 1.0. -/
structure LearningCoefficients where
  flood : ℚ := 1
  heat_wave : ℚ := 1
  storm : ℚ := 1
  wildfire : ℚ := 1
  tornado : ℚ := 1
  earthquake : ℚ := 1
  air_quality : ℚ := 1
deriving DecidableEq

/-- The coefficient store in its initial state (every family at 1.0). -/
def initialCoefficients : LearningCoefficients := {}

/-- `disaster_predictor.py` lines 509-523: clamp one value into a declared
range (assign `min_val` below the range, `max_val` above it, keep it
otherwise). -/
def clampRange (value lo hi : ℚ) : ℚ :=
  if value < lo then lo else if hi < value then hi else value

/-- `disaster_predictor.py` lines 495-526 (`_validate_weather_data`) with the
`VALID_RANGES` table of lines 67-75.  Every ranged attribute of the model is
numeric, so the `isinstance` skip never fires; attributes without a declared
range are copied unchanged. -/
def validateWeatherData (w : WeatherData) : WeatherData :=
  { w with
    temperature := clampRange w.temperature (-70) 60
    humidity := clampRange w.humidity 0 100
    precipitation := clampRange w.precipitation 0 2000
    wind_speed := clampRange w.wind_speed 0 150
    pressure := clampRange w.pressure 870 1085
    air_quality_index := clampRange w.air_quality_index 0 1000
    seismic_activity := clampRange w.seismic_activity 0 10 }

/-- `disaster_predictor.py` lines 552-576: the summed raw flood risk.
`river_level_percent` and `upstream_precipitation` are not `WeatherData`
fields, so `_get_attribute_safely` returns the default 0 for them and their
ramp guards (`> 70`, `> 30`) are never met. -/
def floodBaseRisk (w : WeatherData) : ℚ :=
  let river_level_percent : ℚ := 0
  let upstream_precipitation : ℚ := 0
  (if 20 < w.precipitation then min 0.6 ((w.precipitation - 20) * 0.015) else 0)
    + (if 60 < w.soil_saturation then min 0.3 ((w.soil_saturation - 60) * 0.0075) else 0)
    + (if 70 < river_level_percent then min 0.4 ((river_level_percent - 70) * 0.013) else 0)
    + (if 10 < w.snow_depth ∧ 5 < w.temperature then
        min 0.3 (0.1 + (w.temperature - 5) * 0.02) else 0)
    + (if 30 < upstream_precipitation then min 0.3 ((upstream_precipitation - 30) * 0.01) else 0)

/-- `disaster_predictor.py` lines 550-581 (`_calculate_flood_risk`): the raw
sum is multiplied by the flood learning coefficient and clamped to 0.95. -/
def calculateFloodRisk (c : LearningCoefficients) (w : WeatherData) : ℚ :=
  min 0.95 (floodBaseRisk w * c.flood)

/-- `disaster_predictor.py` lines 583-606 (`_calculate_heat_risk`).
`consecutive_hot_days` and `urban_density` are not `WeatherData` fields, so
their `hasattr`-guarded terms are skipped.  No learning coefficient is
applied. -/
def calculateHeatRisk (w : WeatherData) : ℚ :=
  if w.temperature < 30 then 0
  else
    min 0.95 (min 0.7 ((w.temperature - 30) * 0.07)
      + (if 40 < w.humidity then min 0.3 ((w.humidity - 40) * 0.005) else 0))

/-- `disaster_predictor.py` lines 608-632 (`_calculate_storm_severity`).
`precipitation_intensity` and `cape_value` are not `WeatherData` fields, so
their `hasattr`-guarded terms are skipped; `pressure_change` is a field
(default 0).  No learning coefficient is applied. -/
def calculateStormSeverity (w : WeatherData) : ℚ :=
  min 0.95 ((if 30 < w.wind_speed then min 0.4 ((w.wind_speed - 30) * 0.01) else 0)
    + (if w.pressure < 1005 then min 0.3 ((1005 - w.pressure) * 0.02) else 0)
    + (if w.pressure_change < -3 then min 0.2 (|w.pressure_change + 3| * 0.06) else 0))

/-- `disaster_predictor.py` lines 634-664 (`_calculate_tornado_risk`).
`wind_shear` and `cape_value` are not `WeatherData` fields, so the
`all(hasattr(...))` test always fails and only the basic fallback runs
(`temperature_gradient` is a field, so its `hasattr` is true).  The fallback
returns without the 0.95 clamp, exactly as in the source. -/
def calculateTornadoRisk (w : WeatherData) : ℚ :=
  if 40 < w.wind_speed ∧ 10 < w.temperature_gradient then
    0.4 + min 0.3 ((w.wind_speed - 40) * 0.01)
  else 0

/-- `disaster_predictor.py` lines 666-697 (`_calculate_wildfire_risk`).
`vegetation_dryness` and `dry_lightning_probability` are not `WeatherData`
fields, so their `hasattr`-guarded terms are skipped;
`consecutive_dry_days` is a field (default 0).  No learning coefficient is
applied. -/
def calculateWildfireRisk (w : WeatherData) : ℚ :=
  if 60 < w.humidity ∨ 5 < w.precipitation then 0
  else
    min 0.95 ((if 25 < w.temperature then min 0.3 ((w.temperature - 25) * 0.02) else 0)
      + (if w.humidity < 40 then min 0.3 ((40 - w.humidity) * 0.0075) else 0)
      + (if 15 < w.wind_speed then min 0.2 ((w.wind_speed - 15) * 0.01) else 0)
      + (if 7 < w.consecutive_dry_days then
          min 0.2 ((w.consecutive_dry_days - 7) * 0.02) else 0))

/-- `disaster_predictor.py` lines 150-171: flood tiering. -/
def floodFindings (c : LearningCoefficients) (w : WeatherData) : List DisasterPrediction :=
  let flood_risk := calculateFloodRisk c w
  if 0.8 < flood_risk then
    [⟨"Severe Flood", flood_risk, "Severe",
      "Multiple high-risk conditions indicate serious flooding potential"⟩]
  else if 0.6 < flood_risk then
    [⟨"Moderate Flood", flood_risk, "Moderate",
      "Combined conditions suggest moderate flooding risk"⟩]
  else if 0.4 < flood_risk then
    [⟨"Minor Flood", flood_risk, "Low",
      "Some flood risk factors present but limited severity expected"⟩]
  else []

/-- `disaster_predictor.py` lines 184-192: urban flooding. -/
def urbanFloodFindings (w : WeatherData) : List DisasterPrediction :=
  if 20 < w.precipitation then
    let urban_flood_risk := 0.3 + min 1 (w.urban_runoff_index / 100) * 0.6
    if 0.65 < urban_flood_risk then
      [⟨"Urban Flooding", urban_flood_risk, "High",
        "Rain with high urban runoff potential indicates significant flood risk in city areas"⟩]
    else []
  else []

/-- `disaster_predictor.py` lines 197-218: heat tiering. -/
def heatFindings (w : WeatherData) : List DisasterPrediction :=
  let heat_risk := calculateHeatRisk w
  if 0.85 < heat_risk then
    [⟨"Extreme Heat Wave", heat_risk, "Extreme",
      "Critical combination of high temperature, humidity and duration poses severe health risks"⟩]
  else if 0.7 < heat_risk then
    [⟨"Severe Heat Wave", heat_risk, "Severe",
      "Extended high temperature with humidity creates significant health danger"⟩]
  else if 0.5 < heat_risk then
    [⟨"Heat Wave", heat_risk, "Moderate",
      "Elevated temperatures may cause heat-related health issues"⟩]
  else []

/-- `disaster_predictor.py` lines 221-235: storm tiering (fixed
probabilities 0.85 and 0.75). -/
def stormFindings (w : WeatherData) : List DisasterPrediction :=
  let storm_severity := calculateStormSeverity w
  if 0.8 < storm_severity then
    [⟨"Severe Storm System", 0.85, "Severe",
      "Multiple severe storm indicators present including pressure drop, wind and instability"⟩]
  else if 0.6 < storm_severity then
    [⟨"Moderate Storm", 0.75, "Moderate",
      "Storm conditions developing with potential for significant impact"⟩]
  else []

/-- `disaster_predictor.py` lines 248-262: tornado tiering. -/
def tornadoFindings (w : WeatherData) : List DisasterPrediction :=
  let tornado_risk := calculateTornadoRisk w
  if 0.7 < tornado_risk then
    [⟨"Tornado Warning", tornado_risk, "Severe",
      "Atmospheric conditions highly favorable for tornado formation"⟩]
  else if 0.5 < tornado_risk then
    [⟨"Tornado Watch", tornado_risk, "High",
      "Conditions support possible tornado development in the coming hours"⟩]
  else []

/-- `disaster_predictor.py` lines 265-283: the winter storm complex.  The
accumulated `winter_severity` (up to 0.5 + 0.2 + 0.2 + 0.1 = 1.0) is used
directly as the probability, with no 0.95 clamp. -/
def winterFindings (w : WeatherData) : List DisasterPrediction :=
  if w.temperature < 2 ∧ 10 < w.precipitation then
    let winter_severity := 0.5 + (if w.temperature < -5 then 0.2 else 0)
      + (if 30 < w.wind_speed then 0.2 else 0)
      + (if 20 < w.precipitation then 0.1 else 0)
    let storm_type : String :=
      if 0.8 < winter_severity ∧ 35 < w.wind_speed then "Blizzard" else "Winter Storm"
    [⟨storm_type, winter_severity, if 0.8 < winter_severity then "Severe" else "Moderate",
      "Significant winter precipitation with freezing temperatures creating hazardous conditions"⟩]
  else []

/-- `disaster_predictor.py` lines 288-316: earthquake and the nested tsunami
cascade.  `seismic_activity` and `coastal_proximity` are fields, so their
`hasattr` checks hold; `underwater_quake` is not a field, so the +0.3
underwater bonus of lines 308-309 is never added.  The magnitude
interpolated into the descriptions is elided in this model. -/
def quakeFindings (w : WeatherData) : List DisasterPrediction :=
  if 5 < w.seismic_activity then
    let quake_severity : String :=
      if w.seismic_activity < 6 then "Minor"
      else if w.seismic_activity < 7 then "Moderate"
      else if w.seismic_activity < 8 then "Major"
      else "Extreme"
    ⟨quake_severity ++ " Earthquake", min 0.95 (0.5 + (w.seismic_activity - 5) * 0.1),
      quake_severity, "Seismic activity detected"⟩
      :: (if 6.5 < w.seismic_activity ∧ w.coastal_proximity < 100 then
          [⟨"Tsunami", 0.4 + min 0.5 ((w.seismic_activity - 6.5) * 0.2),
            if w.seismic_activity < 7.5 then "Moderate" else "Severe",
            "Seismic activity near coast creates tsunami risk"⟩]
        else [])
  else []

/-- `disaster_predictor.py` lines 321-342: wildfire tiering. -/
def wildfireFindings (w : WeatherData) : List DisasterPrediction :=
  let wildfire_risk := calculateWildfireRisk w
  if 0.8 < wildfire_risk then
    [⟨"Extreme Fire Danger", wildfire_risk, "Extreme",
      "Critical fire weather conditions present extreme wildfire danger"⟩]
  else if 0.6 < wildfire_risk then
    [⟨"High Fire Danger", wildfire_risk, "High",
      "Weather conditions favorable for rapid fire spread"⟩]
  else if 0.4 < wildfire_risk then
    [⟨"Moderate Fire Danger", wildfire_risk, "Moderate",
      "Some fire risk conditions present, caution advised"⟩]
  else []

/-- `disaster_predictor.py` lines 345-366: air-quality threshold bands
(fixed probabilities). -/
def airQualityFindings (w : WeatherData) : List DisasterPrediction :=
  if 0 < w.air_quality_index then
    if 300 < w.air_quality_index then
      [⟨"Hazardous Air Quality Emergency", 0.95, "Extreme",
        "Extremely dangerous air quality levels pose immediate health threats to all"⟩]
    else if 200 < w.air_quality_index then
      [⟨"Very Unhealthy Air Quality", 0.9, "Severe",
        "Very poor air quality may cause serious health effects for everyone"⟩]
    else if 150 < w.air_quality_index then
      [⟨"Unhealthy Air Quality", 0.8, "High",
        "Unhealthy air quality affects sensitive groups and may affect general population"⟩]
    else []
  else []

/-- `disaster_predictor.py` lines 369-375: the no-hazard sentinel. -/
def noSignificantHazards : DisasterPrediction :=
  ⟨"No Significant Hazards", 0.8, "Low",
    "Current conditions do not indicate any significant disaster risks"⟩

/-- The findings accumulated by `predict_disasters` over a validated
observation, in source order.  The flash-flood block (line 174) and the
hurricane block (line 238) never contribute: on any control path that
reaches their appends the guard has already raised `AttributeError`
(see `predictDisasters`), so they are absent here. -/
def collectFindings (c : LearningCoefficients) (w : WeatherData) : List DisasterPrediction :=
  floodFindings c w ++ urbanFloodFindings w ++ heatFindings w ++ stormFindings w
    ++ tornadoFindings w ++ winterFindings w ++ quakeFindings w ++ wildfireFindings w
    ++ airQualityFindings w

/-- `disaster_predictor.py` lines 132-377 (`predict_disasters`) applied to a
`WeatherData` argument (`_sanitize_input` then just validates it).

Line 174 evaluates `weather_data.precipitation > 30` and then
`weather_data.precipitation_intensity > 15`; the second access raises
`AttributeError` whenever `precipitation > 30`, because
`precipitation_intensity` is not a declared `WeatherData` field.  Line 238
likewise evaluates `weather_data.sea_surface_temp` (not a field) whenever
`wind_speed > 75 and pressure < 980`.  An exception discards every finding
appended so far, so the checks are hoisted to the front of the model. -/
def predictDisasters (c : LearningCoefficients) (raw : WeatherData) :
    Except String (List DisasterPrediction) :=
  let w := validateWeatherData raw
  if 30 < w.precipitation then
    Except.error "AttributeError: WeatherData object has no attribute precipitation_intensity"
  else if 75 < w.wind_speed ∧ w.pressure < 980 then
    Except.error "AttributeError: WeatherData object has no attribute sea_surface_temp"
  else
    let ps := collectFindings c w
    Except.ok (if ps = [] then [noSignificantHazards] else ps)

/-- Python `str.strip()` on the (ASCII) strings this system handles:
drop leading and trailing whitespace. -/
def pyStrip (s : String) : String :=
  ⟨((s.toList.dropWhile Char.isWhitespace).reverse.dropWhile Char.isWhitespace).reverse⟩

/-- Python `s.lower().strip()` as used at `disaster_predictor.py` lines 105
and 464 (ASCII lowering). -/
def pyLowerStrip (s : String) : String :=
  pyStrip s.toLower

/-- `disaster_predictor.py` lines 15-40: the `ATTRIBUTE_ALIASES` table. -/
def ATTRIBUTE_ALIASES : List (String × String) :=
  [("tempature", "temperature"), ("temperatue", "temperature"), ("temprature", "temperature"),
   ("humid", "humidity"), ("humidty", "humidity"),
   ("precip", "precipitation"), ("rainfall", "precipitation"),
   ("wind", "wind_speed"), ("windspeed", "wind_speed"), ("pressure", "pressure"),
   ("temp", "temperature"), ("rain", "precipitation"), ("winds", "wind_speed"),
   ("soil_moisture", "soil_saturation"), ("dry_days", "consecutive_dry_days"),
   ("hot_days", "consecutive_hot_days"), ("air_quality", "air_quality_index"),
   ("aqi", "air_quality_index"), ("earthquake", "seismic_activity"),
   ("coastal_distance", "coastal_proximity"), ("volcano", "volcanic_activity")]

/-- Set a key in a Python-dict-like association list: replace the value in
place if the key is present, else append the pair at the end. -/
def dictSet (m : List (String × ℚ)) (k : String) (v : ℚ) : List (String × ℚ) :=
  if m.any (fun kv => kv.1 = k) then
    m.map (fun kv => if kv.1 = k then (k, v) else kv)
  else m ++ [(k, v)]

/-- Look a key up in an association list. -/
def dictGet (m : List (String × ℚ)) (k : String) : Option ℚ :=
  (m.find? (fun kv => kv.1 = k)).map (fun kv => kv.2)

/-- `disaster_predictor.py` lines 461-472 (`_sanitize_input`, dictionary
branch): lowercase and strip each key, replace known aliases, and build the
normalized dictionary in iteration order. -/
def normalizeObservationKeys (d : List (String × ℚ)) : List (String × ℚ) :=
  d.foldl (fun acc kv =>
    let clean_key := pyLowerStrip kv.1
    let normalized_key := ((ATTRIBUTE_ALIASES.find? (fun a => a.1 = clean_key)).map
      (fun a => a.2)).getD clean_key
    dictSet acc normalized_key kv.2) []

/-- `WeatherData(**normalized_data)`: pydantic populates each declared field
from the dictionary when present (defaults otherwise) and silently ignores
every unknown key. -/
def weatherDataFromDict (m : List (String × ℚ)) : WeatherData :=
  { temperature := (dictGet m "temperature").getD 0
    humidity := (dictGet m "humidity").getD 0
    precipitation := (dictGet m "precipitation").getD 0
    wind_speed := (dictGet m "wind_speed").getD 0
    pressure := (dictGet m "pressure").getD 1013
    snow_depth := (dictGet m "snow_depth").getD 0
    temperature_gradient := (dictGet m "temperature_gradient").getD 0
    consecutive_dry_days := (dictGet m "consecutive_dry_days").getD 0
    soil_saturation := (dictGet m "soil_saturation").getD 0
    temperature_change := (dictGet m "temperature_change").getD 0
    snow_fall := (dictGet m "snow_fall").getD 0
    air_quality_index := (dictGet m "air_quality_index").getD 0
    seismic_activity := (dictGet m "seismic_activity").getD 0
    coastal_proximity := (dictGet m "coastal_proximity").getD 9999
    volcanic_activity := (dictGet m "volcanic_activity").getD 0
    pressure_change := (dictGet m "pressure_change").getD 0
    cloud_height := (dictGet m "cloud_height").getD 10000
    dew_point := (dictGet m "dew_point").getD 0
    stagnant_water_index := (dictGet m "stagnant_water_index").getD 0
    urban_runoff_index := (dictGet m "urban_runoff_index").getD 0
    temperature_profile := "normal" }

/-- `predict_disasters` on a dictionary observation (with numeric values):
`_sanitize_input` normalizes the keys, builds the `WeatherData` object and
validates it, then the prediction body runs. -/
def predictDisastersDict (c : LearningCoefficients) (d : List (String × ℚ)) :
    Except String (List DisasterPrediction) :=
  predictDisasters c (weatherDataFromDict (normalizeObservationKeys d))

/-! ## The learning step (`learn_from_history`) -/

/-- One historical prediction record as returned by
`PredictionStorage.get_recent_predictions`: the stored findings plus an
optional accuracy score. -/
structure FeedbackRecord where
  accuracy : Option ℚ
  predictions : List DisasterPrediction
deriving DecidableEq

/-- Python substring containment `needle in hay`. -/
def containsSub (hay needle : String) : Bool :=
  hay.toList.tails.any (fun t => needle.toList.isPrefixOf t)

/-- `disaster_predictor.py` lines 422-441 (`_map_to_category`): keyword
containment mapping from a hazard label to its learning family. -/
def mapToCategory (disaster_type : String) : String :=
  let d := disaster_type.toLower
  if ["flood", "rain", "water"].any (fun t => containsSub d t) then "flood"
  else if ["heat", "hot"].any (fun t => containsSub d t) then "heat_wave"
  else if ["storm", "hurricane", "cyclone", "typhoon"].any (fun t => containsSub d t) then "storm"
  else if ["fire", "wildfire"].any (fun t => containsSub d t) then "wildfire"
  else if ["tornado"].any (fun t => containsSub d t) then "tornado"
  else if ["earthquake", "seismic"].any (fun t => containsSub d t) then "earthquake"
  else if ["air", "pollution"].any (fun t => containsSub d t) then "air_quality"
  else "other"

/-- Append a value to the bucket of a key in a Python-dict-like association
list of lists (create the bucket at the end if absent), as in
`accuracy_by_type` of lines 391-407. -/
def bucketAppend (m : List (String × List ℚ)) (k : String) (v : ℚ) :
    List (String × List ℚ) :=
  if m.any (fun kv => kv.1 = k) then
    m.map (fun kv => if kv.1 = k then (kv.1, kv.2 ++ [v]) else kv)
  else m ++ [(k, [v])]

/-- One iteration of the record loop of lines 393-407: skip the record when
its accuracy is null, otherwise append its accuracy to the bucket of every
finding it contains. -/
def accuracyStep (m : List (String × List ℚ)) (record : FeedbackRecord) :
    List (String × List ℚ) :=
  match record.accuracy with
  | none => m
  | some acc => record.predictions.foldl (fun m p =>
      bucketAppend m (mapToCategory p.disaster_type.toLower) acc) m

/-- `disaster_predictor.py` lines 391-407: group the accuracy scores of
feedback-bearing records by mapped category.  Records whose `accuracy` is
null are skipped. -/
def accuracyByType (recent : List FeedbackRecord) : List (String × List ℚ) :=
  recent.foldl accuracyStep []

/-- `disaster_predictor.py` lines 410-420: the per-category coefficient
update.  `category in self.learning_coefficients` holds only for the seven
family keys; the adjustment `(avg - 0.5) * 0.1` is added to the current
coefficient and the result clamped to `[0.5, 1.5]`. -/
def applyAdjustment (c : LearningCoefficients) (category : String)
    (accuracies : List ℚ) : LearningCoefficients :=
  if accuracies.length = 0 then c
  else
    let avg_accuracy := accuracies.sum / (accuracies.length : ℚ)
    let adjustment := (avg_accuracy - 0.5) * 0.1
    if category = "flood" then { c with flood := max 0.5 (min 1.5 (c.flood + adjustment)) }
    else if category = "heat_wave" then
      { c with heat_wave := max 0.5 (min 1.5 (c.heat_wave + adjustment)) }
    else if category = "storm" then { c with storm := max 0.5 (min 1.5 (c.storm + adjustment)) }
    else if category = "wildfire" then
      { c with wildfire := max 0.5 (min 1.5 (c.wildfire + adjustment)) }
    else if category = "tornado" then
      { c with tornado := max 0.5 (min 1.5 (c.tornado + adjustment)) }
    else if category = "earthquake" then
      { c with earthquake := max 0.5 (min 1.5 (c.earthquake + adjustment)) }
    else if category = "air_quality" then
      { c with air_quality := max 0.5 (min 1.5 (c.air_quality + adjustment)) }
    else c

/-- `disaster_predictor.py` lines 379-420 (`learn_from_history`), as a
function of the current coefficients and the history returned by the
storage.  Note the guard of line 387 counts *all* records of the history,
including records without accuracy feedback. -/
def learnFromHistory (c : LearningCoefficients) (recent : List FeedbackRecord) :
    LearningCoefficients :=
  if recent.length < 5 then c
  else (accuracyByType recent).foldl (fun c kv => applyAdjustment c kv.1 kv.2) c

/-! ## The location resolver (`correct_location_name`)

The fuzzy step models CPython `difflib.get_close_matches` /
`SequenceMatcher.ratio` over exact rationals: `ratio = 2*M/T`, where `M`
is the total size of the matching blocks found by the recursive
longest-matching-block algorithm and `T` the combined length.  The
`real_quick_ratio`/`quick_ratio` pre-filters of `get_close_matches` are
upper bounds on `ratio`, so they never change which candidates pass the
cutoff.  `b2j` autojunk (elements filling more than 1% of a `b` of length
at least 200) is modelled by `isPopularChar`; the junk set itself is empty
because `SequenceMatcher` is created with `isjunk = None`. -/

/-- `disaster_predictor.py` lines 43-64: the `LOCATION_ALIASES` table, in
source order. -/
def LOCATION_ALIASES : List (String × List String) :=
  [("cherrapunji", ["chirapunji", "cheerapunji", "chirrapunji", "cherapunji"]),
   ("mumbai", ["bombay", "mumbia", "mumbye"]),
   ("delhi", ["new delhi", "dilli", "dehli"]),
   ("bangalore", ["bengaluru", "banglore", "bangalor"]),
   ("chennai", ["madras", "chenai", "chinnai"]),
   ("kolkata", ["calcutta", "kolkatta", "kolkota"]),
   ("new york", ["newyork", "ny", "new york city", "nyc"]),
   ("los angeles", ["la", "l.a.", "losangeles"]),
   ("san francisco", ["sf", "sanfran", "sanfrancisco"]),
   ("new orleans", ["neworleans", "nawlins"]),
   ("london", ["londra", "londen"]),
   ("paris", ["pari", "paree"]),
   ("tokyo", ["tokio", "toyko"]),
   ("beijing", ["peking", "beijing"]),
   ("sydney", ["sidney"])]

/-- `disaster_predictor.py` lines 108-113 (and the identical reverse lookup
of lines 125-127): first table entry whose canonical name equals the query
or whose alias list contains it. -/
def findDirectLocation (location_lower : String) : Option String :=
  LOCATION_ALIASES.findSome? fun kv =>
    if location_lower = kv.1 ∨ kv.2.contains location_lower then some kv.1 else none

/-- `disaster_predictor.py` lines 116-118: all canonical names followed by
all aliases. -/
def allLocations : List String :=
  LOCATION_ALIASES.map Prod.fst ++ (LOCATION_ALIASES.map Prod.snd).flatten

/-- difflib autojunk: in a `b`-sequence of length at least 200, characters
occupying more than 1% of `b` are removed from `b2j` and cannot seed a
matching block. -/
def isPopularChar (b : List Char) (c : Char) : Bool :=
  decide (200 ≤ b.length) && decide (b.length / 100 + 1 < b.count c)

/-- Length of the matching run of non-popular characters starting at
positions `(i, j)` inside `a[.. ahi]`, `b[.. bhi]` (fuel-indexed). -/
def matchRunLenAux (a b : List Char) (pop : Char → Bool) (ahi bhi : Nat) :
    Nat → Nat → Nat → Nat
  | 0, _, _ => 0
  | fuel + 1, i, j =>
    if i < ahi ∧ j < bhi ∧ a.getD i ' ' = b.getD j ' ' ∧ pop (b.getD j ' ') = false then
      matchRunLenAux a b pop ahi bhi fuel (i + 1) (j + 1) + 1
    else 0

/-- Length of the matching run of non-popular characters starting at
`(i, j)`. -/
def matchRunLen (a b : List Char) (pop : Char → Bool) (ahi bhi i j : Nat) : Nat :=
  matchRunLenAux a b pop ahi bhi (ahi - i) i j

/-- The backward extension loop of `find_longest_match`: grow the block
while the preceding characters match (the junk set is empty). -/
def extendBack (a b : List Char) (alo blo : Nat) :
    Nat → Nat × Nat × Nat → Nat × Nat × Nat
  | 0, best => best
  | fuel + 1, (bi, bj, sz) =>
    if alo < bi ∧ blo < bj ∧ a.getD (bi - 1) ' ' = b.getD (bj - 1) ' ' then
      extendBack a b alo blo fuel (bi - 1, bj - 1, sz + 1)
    else (bi, bj, sz)

/-- The forward extension loop of `find_longest_match`. -/
def extendFwd (a b : List Char) (ahi bhi : Nat) :
    Nat → Nat × Nat × Nat → Nat × Nat × Nat
  | 0, best => best
  | fuel + 1, (bi, bj, sz) =>
    if bi + sz < ahi ∧ bj + sz < bhi ∧ a.getD (bi + sz) ' ' = b.getD (bj + sz) ' ' then
      extendFwd a b ahi bhi fuel (bi, bj, sz + 1)
    else (bi, bj, sz)

/-- `SequenceMatcher.find_longest_match` on `a[alo .. ahi]`,
`b[blo .. bhi]`: the longest run of equal, non-popular characters,
ties resolved to the earliest `(i, j)`, then extended over adjacent equal
characters (a no-op unless popular characters were excluded). -/
def findLongestMatch (a b : List Char) (pop : Char → Bool)
    (alo ahi blo bhi : Nat) : Nat × Nat × Nat :=
  let dp := (List.range' alo (ahi - alo)).foldl (fun best i =>
    (List.range' blo (bhi - blo)).foldl (fun best j =>
      let k := matchRunLen a b pop ahi bhi i j
      if best.2.2 < k then (i, j, k) else best) best) (alo, blo, 0)
  extendFwd a b ahi bhi ahi (extendBack a b alo blo dp.1 dp)

/-- `SequenceMatcher.get_matching_blocks`, summed: total matched size over
the recursive decomposition around each longest match (fuel-indexed; the
combined interval width strictly decreases at every level). -/
def totalMatchedAux (a b : List Char) (pop : Char → Bool) :
    Nat → Nat → Nat → Nat → Nat → Nat
  | 0, _, _, _, _ => 0
  | fuel + 1, alo, ahi, blo, bhi =>
    let best := findLongestMatch a b pop alo ahi blo bhi
    if best.2.2 = 0 then 0
    else
      totalMatchedAux a b pop fuel alo best.1 blo best.2.1 + best.2.2
        + totalMatchedAux a b pop fuel (best.1 + best.2.2) ahi (best.2.1 + best.2.2) bhi

/-- Total size of all matching blocks of `a` against `b`. -/
def totalMatched (a b : List Char) (pop : Char → Bool) : Nat :=
  totalMatchedAux a b pop (a.length + b.length + 1) 0 a.length 0 b.length

/-- `SequenceMatcher.ratio`: `2*M/T` (and 1.0 for two empty sequences),
over exact rationals. -/
def ratioQ (a b : List Char) (pop : Char → Bool) : ℚ :=
  if a.length + b.length = 0 then 1
  else 2 * (totalMatched a b pop : ℚ) / ((a.length : ℚ) + (b.length : ℚ))

/-- Similarity of a candidate `x` against the query `word`, with `word` as
the `b`-sequence exactly as `get_close_matches` sets the sequences. -/
def locationRatio (x word : String) : ℚ :=
  ratioQ x.toList word.toList (isPopularChar word.toList)

/-- Python string comparison (code-point lexicographic), used by
`heapq.nlargest` on `(score, string)` pairs. -/
def pyStrLtAux : List Char → List Char → Bool
  | [], [] => false
  | [], _ :: _ => true
  | _ :: _, [] => false
  | c :: cs, d :: ds => if c = d then pyStrLtAux cs ds else decide (c.val < d.val)

/-- Python `s < t` on strings. -/
def pyStrLt (s t : String) : Bool :=
  pyStrLtAux s.toList t.toList

/-- `difflib.get_close_matches(word, possibilities, n=1, cutoff=0.7)`:
keep the candidates whose ratio reaches the cutoff, and return the one that
is largest in the `(score, string)` tuple order (`heapq.nlargest`). -/
def getCloseMatch (word : String) (possibilities : List String) : Option String :=
  let scored := possibilities.filterMap (fun x =>
    let r := locationRatio x word
    if (7 : ℚ) / 10 ≤ r then some (r, x) else none)
  (scored.foldl (fun best rx =>
    match best with
    | none => some rx
    | some b0 => if b0.1 < rx.1 ∨ (b0.1 = rx.1 ∧ pyStrLt b0.2 rx.2) then some rx else some b0)
    none).map (fun rx => rx.2)

/-- `disaster_predictor.py` lines 91-130 (`correct_location_name`): empty
input unchanged; otherwise lowercase and strip, try the direct table match,
then fuzzy matching over all canonical names and aliases, mapping a fuzzy
hit back to its canonical name; return the input unchanged when nothing
matches. -/
def correctLocationName (location_input : String) : String :=
  if location_input = "" then location_input
  else
    let location_lower := pyLowerStrip location_input
    match findDirectLocation location_lower with
    | some correct_name => correct_name
    | none =>
      match getCloseMatch location_lower allLocations with
      | some matched_alias =>
        match findDirectLocation matched_alias with
        | some correct_name => correct_name
        | none => location_input
      | none => location_input

/-! ## Concrete scenario inputs -/

instance : DecidableEq (Except String (List DisasterPrediction)) := fun
  | Except.ok a, Except.ok b =>
    match decEq a b with
    | isTrue h => isTrue (by rw [h])
    | isFalse h => isFalse (fun hh => h (by injection hh))
  | Except.ok _, Except.error _ => isFalse (fun hh => Except.noConfusion hh)
  | Except.error _, Except.ok _ => isFalse (fun hh => Except.noConfusion hh)
  | Except.error e, Except.error f =>
    match decEq e f with
    | isTrue h => isTrue (by rw [h])
    | isFalse h => isFalse (fun hh => h (by injection hh))

/-- A winter observation: heavy freezing precipitation with strong wind. -/
def winterObservation : WeatherData :=
  { temperature := -10, precipitation := 25, wind_speed := 40 }

/-- A hot observation: 40 degrees at 50% humidity. -/
def hotObservation : WeatherData :=
  { temperature := 40, humidity := 50 }

/-- A coastal earthquake observation: magnitude 7 at 50 distance units from
the coast. -/
def quakeObservation : WeatherData :=
  { seismic_activity := 7, coastal_proximity := 50 }

/-- The coefficient store with the heat-wave coefficient halved. -/
def halfHeatCoefficients : LearningCoefficients :=
  { heat_wave := 0.5 }

/-- A stored flood prediction with perfect accuracy feedback. -/
def floodFeedbackRecord : FeedbackRecord :=
  ⟨some 1, [⟨"Severe Flood", 0.85, "Severe",
    "Multiple high-risk conditions indicate serious flooding potential"⟩]⟩

/-- Five flood records with accuracy 1: enough history to trigger the
learning update. -/
def fiveFloodRecords : List FeedbackRecord :=
  List.replicate 5 floodFeedbackRecord

/-- Four flood records with accuracy 1: below the record-count guard. -/
def fourFloodRecords : List FeedbackRecord :=
  List.replicate 4 floodFeedbackRecord

/-- Five records of which only one carries accuracy feedback. -/
def mixedRecords : List FeedbackRecord :=
  [⟨none, []⟩, ⟨none, []⟩, ⟨none, []⟩, ⟨none, []⟩, floodFeedbackRecord]

/-- Six records none of which carries accuracy feedback. -/
def noFeedbackRecords : List FeedbackRecord :=
  List.replicate 6 (⟨none, [noSignificantHazards]⟩ : FeedbackRecord)

/-! ## Helper lemmas -/

lemma calculateFloodRisk_le (c : LearningCoefficients) (w : WeatherData) :
    calculateFloodRisk c w ≤ 0.95 :=
  min_le_left _ _

lemma calculateHeatRisk_le (w : WeatherData) : calculateHeatRisk w ≤ 0.95 := by
  unfold calculateHeatRisk
  by_cases h : w.temperature < 30
  · rw [if_pos h]; norm_num
  · rw [if_neg h]; exact min_le_left _ _

lemma calculateTornadoRisk_le (w : WeatherData) : calculateTornadoRisk w ≤ 0.7 := by
  unfold calculateTornadoRisk
  by_cases h : 40 < w.wind_speed ∧ 10 < w.temperature_gradient
  · rw [if_pos h]
    have := min_le_left (0.3 : ℚ) ((w.wind_speed - 40) * 0.01)
    linarith
  · rw [if_neg h]; norm_num

lemma calculateWildfireRisk_le (w : WeatherData) : calculateWildfireRisk w ≤ 0.95 := by
  unfold calculateWildfireRisk
  by_cases h : 60 < w.humidity ∨ 5 < w.precipitation
  · rw [if_pos h]; norm_num
  · rw [if_neg h]; exact min_le_left _ _

lemma floodFindings_mem {c : LearningCoefficients} {w : WeatherData}
    {p : DisasterPrediction} (hp : p ∈ floodFindings c w) :
    (0 ≤ p.probability ∧ p.probability ≤ 0.95) ∧
      (p.disaster_type = "Severe Flood" ∨ p.disaster_type = "Moderate Flood" ∨
        p.disaster_type = "Minor Flood") := by
  have hle := calculateFloodRisk_le c w
  simp only [floodFindings] at hp
  split_ifs at hp with h1 h2 h3 <;> simp at hp <;> subst hp
  · exact ⟨⟨show (0:ℚ) ≤ calculateFloodRisk c w by linarith, hle⟩, Or.inl rfl⟩
  · exact ⟨⟨show (0:ℚ) ≤ calculateFloodRisk c w by linarith, hle⟩, Or.inr (Or.inl rfl)⟩
  · exact ⟨⟨show (0:ℚ) ≤ calculateFloodRisk c w by linarith, hle⟩, Or.inr (Or.inr rfl)⟩

lemma urbanFloodFindings_mem {w : WeatherData} {p : DisasterPrediction}
    (hp : p ∈ urbanFloodFindings w) :
    (0 ≤ p.probability ∧ p.probability ≤ 0.95) ∧ p.disaster_type = "Urban Flooding" := by
  simp only [urbanFloodFindings] at hp
  split_ifs at hp with h1 h2 <;> simp at hp
  subst hp
  have hm : min 1 (w.urban_runoff_index / 100) ≤ 1 := min_le_left _ _
  have hm6 : min 1 (w.urban_runoff_index / 100) * 0.6 ≤ 0.6 := by nlinarith
  refine ⟨⟨show (0:ℚ) ≤ 0.3 + min 1 (w.urban_runoff_index / 100) * 0.6 by linarith,
    show (0.3 : ℚ) + min 1 (w.urban_runoff_index / 100) * 0.6 ≤ 0.95 by linarith⟩, rfl⟩

lemma heatFindings_mem {w : WeatherData} {p : DisasterPrediction}
    (hp : p ∈ heatFindings w) :
    (0 ≤ p.probability ∧ p.probability ≤ 0.95) ∧
      (p.disaster_type = "Extreme Heat Wave" ∨ p.disaster_type = "Severe Heat Wave" ∨
        p.disaster_type = "Heat Wave") := by
  have hle := calculateHeatRisk_le w
  simp only [heatFindings] at hp
  split_ifs at hp with h1 h2 h3 <;> simp at hp <;> subst hp
  · exact ⟨⟨show (0:ℚ) ≤ calculateHeatRisk w by linarith, hle⟩, Or.inl rfl⟩
  · exact ⟨⟨show (0:ℚ) ≤ calculateHeatRisk w by linarith, hle⟩, Or.inr (Or.inl rfl)⟩
  · exact ⟨⟨show (0:ℚ) ≤ calculateHeatRisk w by linarith, hle⟩, Or.inr (Or.inr rfl)⟩

lemma stormFindings_mem {w : WeatherData} {p : DisasterPrediction}
    (hp : p ∈ stormFindings w) :
    (0 ≤ p.probability ∧ p.probability ≤ 0.95) ∧
      (p.disaster_type = "Severe Storm System" ∨ p.disaster_type = "Moderate Storm") := by
  simp only [stormFindings] at hp
  split_ifs at hp with h1 h2 <;> simp at hp <;> subst hp
  · exact ⟨⟨by norm_num, by norm_num⟩, Or.inl rfl⟩
  · exact ⟨⟨by norm_num, by norm_num⟩, Or.inr rfl⟩

lemma tornadoFindings_mem {w : WeatherData} {p : DisasterPrediction}
    (hp : p ∈ tornadoFindings w) :
    (0 ≤ p.probability ∧ p.probability ≤ 0.95) ∧
      (p.disaster_type = "Tornado Warning" ∨ p.disaster_type = "Tornado Watch") := by
  have hle := calculateTornadoRisk_le w
  simp only [tornadoFindings] at hp
  split_ifs at hp with h1 h2 <;> simp at hp <;> subst hp
  · exact ⟨⟨show (0:ℚ) ≤ calculateTornadoRisk w by linarith,
      show calculateTornadoRisk w ≤ 0.95 by linarith⟩, Or.inl rfl⟩
  · exact ⟨⟨show (0:ℚ) ≤ calculateTornadoRisk w by linarith,
      show calculateTornadoRisk w ≤ 0.95 by linarith⟩, Or.inr rfl⟩

lemma winterFindings_mem {w : WeatherData} {p : DisasterPrediction}
    (hp : p ∈ winterFindings w) :
    (0 ≤ p.probability ∧ p.probability ≤ 1) ∧
      (p.disaster_type = "Winter Storm" ∨ p.disaster_type = "Blizzard") := by
  simp only [winterFindings] at hp
  split_ifs at hp <;> simp at hp <;> subst hp <;>
    exact ⟨⟨by norm_num, by norm_num⟩, by simp⟩

lemma mem_quakeFindings_seismic {w : WeatherData} {p : DisasterPrediction}
    (hp : p ∈ quakeFindings w) : 5 < w.seismic_activity := by
  by_cases h5 : 5 < w.seismic_activity
  · exact h5
  · simp only [quakeFindings, if_neg h5] at hp
    simp at hp

lemma quakeFindings_mem {w : WeatherData} {p : DisasterPrediction}
    (hp : p ∈ quakeFindings w) :
    (0 ≤ p.probability ∧ p.probability ≤ 0.95) ∧
      (p.disaster_type = "Tsunami" ∨ ∃ sev, p.disaster_type = sev ++ " Earthquake") := by
  have h5 := mem_quakeFindings_seismic hp
  simp only [quakeFindings, if_pos h5] at hp
  rcases List.mem_cons.mp hp with hp | hp
  · subst hp
    refine ⟨⟨?_, min_le_left _ _⟩, Or.inr ⟨_, rfl⟩⟩
    show (0:ℚ) ≤ min 0.95 (0.5 + (w.seismic_activity - 5) * 0.1)
    exact le_min (by norm_num) (by nlinarith)
  · by_cases h65 : 6.5 < w.seismic_activity ∧ w.coastal_proximity < 100
    · rw [if_pos h65] at hp
      simp at hp
      subst hp
      obtain ⟨h65a, _⟩ := h65
      have hm : min 0.5 ((w.seismic_activity - 6.5) * 0.2) ≤ 0.5 := min_le_left _ _
      have hm0 : (0:ℚ) ≤ min 0.5 ((w.seismic_activity - 6.5) * 0.2) :=
        le_min (by norm_num) (by nlinarith)
      exact ⟨⟨show (0:ℚ) ≤ 0.4 + min 0.5 ((w.seismic_activity - 6.5) * 0.2) by linarith,
        show (0.4:ℚ) + min 0.5 ((w.seismic_activity - 6.5) * 0.2) ≤ 0.95 by linarith⟩,
        Or.inl rfl⟩
    · rw [if_neg h65] at hp
      simp at hp

lemma quakeFindings_earthquake {w : WeatherData} (h5 : 5 < w.seismic_activity) :
    ∃ q ∈ quakeFindings w, ∃ sev, q.disaster_type = sev ++ " Earthquake" := by
  simp only [quakeFindings]
  rw [if_pos h5]
  exact ⟨_, List.mem_cons_self _ _, _, rfl⟩

lemma wildfireFindings_mem {w : WeatherData} {p : DisasterPrediction}
    (hp : p ∈ wildfireFindings w) :
    (0 ≤ p.probability ∧ p.probability ≤ 0.95) ∧
      (p.disaster_type = "Extreme Fire Danger" ∨ p.disaster_type = "High Fire Danger" ∨
        p.disaster_type = "Moderate Fire Danger") := by
  have hle := calculateWildfireRisk_le w
  simp only [wildfireFindings] at hp
  split_ifs at hp with h1 h2 h3 <;> simp at hp <;> subst hp
  · exact ⟨⟨show (0:ℚ) ≤ calculateWildfireRisk w by linarith, hle⟩, Or.inl rfl⟩
  · exact ⟨⟨show (0:ℚ) ≤ calculateWildfireRisk w by linarith, hle⟩, Or.inr (Or.inl rfl)⟩
  · exact ⟨⟨show (0:ℚ) ≤ calculateWildfireRisk w by linarith, hle⟩, Or.inr (Or.inr rfl)⟩

lemma airQualityFindings_mem {w : WeatherData} {p : DisasterPrediction}
    (hp : p ∈ airQualityFindings w) :
    (0 ≤ p.probability ∧ p.probability ≤ 0.95) ∧
      (p.disaster_type = "Hazardous Air Quality Emergency" ∨
        p.disaster_type = "Very Unhealthy Air Quality" ∨
        p.disaster_type = "Unhealthy Air Quality") := by
  simp only [airQualityFindings] at hp
  split_ifs at hp <;> simp at hp <;> subst hp
  · exact ⟨⟨by norm_num, by norm_num⟩, Or.inl rfl⟩
  · exact ⟨⟨by norm_num, by norm_num⟩, Or.inr (Or.inl rfl)⟩
  · exact ⟨⟨by norm_num, by norm_num⟩, Or.inr (Or.inr rfl)⟩

lemma accuracyStep_none {m : List (String × List ℚ)} {r : FeedbackRecord}
    (h : r.accuracy = none) : accuracyStep m r = m := by
  unfold accuracyStep
  rw [h]

lemma accuracyByType_all_none (recs : List FeedbackRecord)
    (h : ∀ r ∈ recs, r.accuracy = none) : accuracyByType recs = [] := by
  unfold accuracyByType
  suffices key : ∀ m, List.foldl accuracyStep m recs = m by exact key []
  induction recs with
  | nil => intro m; rfl
  | cons r rs ih =>
    intro m
    rw [List.foldl_cons, accuracyStep_none (h r (List.mem_cons_self r rs))]
    exact ih (fun x hx => h x (List.mem_cons_of_mem r hx)) m

lemma getCloseMatch_eq_none {word : String} {poss : List String}
    (h : ∀ x ∈ poss, locationRatio x word < 7 / 10) :
    getCloseMatch word poss = none := by
  simp only [getCloseMatch]
  have hnil : poss.filterMap (fun x =>
      if (7 : ℚ) / 10 ≤ locationRatio x word then some (locationRatio x word, x) else none) = [] := by
    rw [List.filterMap_eq_nil_iff]
    intro x hx
    rw [if_neg (not_le.mpr (h x hx))]
  rw [hnil]
  rfl

lemma clampRange_eq (v lo hi : ℚ) (h : lo ≤ hi) :
    clampRange v lo hi = max lo (min hi v) := by
  unfold clampRange
  split_ifs with h1 h2
  · rw [min_eq_right (le_trans (le_of_lt h1) h), max_eq_left (le_of_lt h1)]
  · rw [min_eq_left (le_of_lt h2), max_eq_right h]
  · push_neg at h1 h2
    rw [min_eq_right h2, max_eq_right h1]

/-! ## Claim theorems -/

/-- Claim C2 (code_bug evidence): on the dictionary observation
`precipitation = 35, precipitation_intensity = 18`, `predict_disasters` does
not return a Flash Flood finding — it raises `AttributeError`, because the
flash-flood guard of line 174 reads `weather_data.precipitation_intensity`
and `precipitation_intensity` is not a declared field of the `WeatherData`
model (pydantic silently dropped the extra key). -/
theorem c2_flash_flood_attribute_error :
    predictDisastersDict initialCoefficients
        [("precipitation", 35), ("precipitation_intensity", 18)] =
      Except.error
        "AttributeError: WeatherData object has no attribute precipitation_intensity" := by
  with_unfolding_all rfl

/-- Claim C3 (code_bug evidence): on the dictionary observation
`wind_speed = 80, pressure = 975, sea_surface_temp = 27`, `predict_disasters`
does not return a Hurricane/Cyclone finding — it raises `AttributeError`,
because the hurricane guard of line 238 reads
`weather_data.sea_surface_temp`, which is not a declared field of the
`WeatherData` model (pydantic silently dropped the extra key). -/
theorem c3_hurricane_attribute_error :
    predictDisastersDict initialCoefficients
        [("wind_speed", 80), ("pressure", 975), ("sea_surface_temp", 27)] =
      Except.error
        "AttributeError: WeatherData object has no attribute sea_surface_temp" := by
  with_unfolding_all rfl

/-- Claim C4, counterexample: running `learn_from_history` twice over the
same five-record flood history does not leave the coefficients where a
single run puts them — each run adds the adjustment to the current
coefficients again. -/
theorem c4_counterexample :
    learnFromHistory (learnFromHistory initialCoefficients fiveFloodRecords)
        fiveFloodRecords ≠
      learnFromHistory initialCoefficients fiveFloodRecords := by
  with_unfolding_all decide

/-- Claim C4, amended: `learn_from_history` integrates deltas into the
current coefficients rather than recomputing them from scratch: over the
five-record flood history with mean accuracy 1 it sends any current flood
coefficient `x` to `clamp(x + 0.05)`, so the flood coefficient goes
`1.0 -> 1.05` after one run and `1.05 -> 1.10` after a second identical
run. -/
theorem c4_amended :
    (∀ c : LearningCoefficients, learnFromHistory c fiveFloodRecords =
      { c with flood := max 0.5 (min 1.5 (c.flood + 0.05)) }) ∧
    learnFromHistory initialCoefficients fiveFloodRecords = { flood := 1.05 } ∧
    learnFromHistory (learnFromHistory initialCoefficients fiveFloodRecords)
        fiveFloodRecords = { flood := 1.1 } := by
  refine ⟨fun c => ?_, by with_unfolding_all rfl, by with_unfolding_all rfl⟩
  with_unfolding_all rfl

/-- Claim C5, counterexample: a history of five records of which only one is
feedback-bearing (four have a null accuracy) does change the coefficients:
the skip guard of line 387 counts all records, not feedback-bearing ones. -/
theorem c5_counterexample :
    learnFromHistory initialCoefficients mixedRecords ≠ initialCoefficients := by
  with_unfolding_all decide

/-- Claim C5, amended: `learn_from_history` leaves every coefficient
unchanged whenever the history contains fewer than 5 records in total
(regardless of their accuracy fields), and also whenever no record of the
history carries accuracy feedback; with 5 or more total records, even a
single feedback-bearing record triggers an update. -/
theorem c5_amended :
    (∀ (c : LearningCoefficients) (recs : List FeedbackRecord),
        recs.length < 5 → learnFromHistory c recs = c) ∧
    (∀ (c : LearningCoefficients) (recs : List FeedbackRecord),
        (∀ r ∈ recs, r.accuracy = none) → learnFromHistory c recs = c) := by
  constructor
  · intro c recs h
    unfold learnFromHistory
    rw [if_pos h]
  · intro c recs h
    unfold learnFromHistory
    split_ifs with h5
    · rfl
    · rw [accuracyByType_all_none recs h]
      rfl

/-- Witness for C5: four flood records (below the record-count guard) and
six feedback-free records both leave the initial coefficients unchanged. -/
theorem c5_witness :
    learnFromHistory initialCoefficients fourFloodRecords = initialCoefficients ∧
    learnFromHistory initialCoefficients noFeedbackRecords = initialCoefficients :=
  ⟨c5_amended.1 initialCoefficients fourFloodRecords (by with_unfolding_all decide),
   c5_amended.2 initialCoefficients noFeedbackRecords (by with_unfolding_all decide)⟩

/-- Claim C6, counterexample: halving the heat-wave learning coefficient
changes nothing — `_calculate_heat_risk` never reads its coefficient, so the
hot observation still yields the Severe Heat Wave finding with probability
0.75, although the claim mandates a pre-clamp risk of 0.375 (below the 0.5
finding threshold). -/
theorem c6_counterexample :
    predictDisasters halfHeatCoefficients hotObservation =
        predictDisasters initialCoefficients hotObservation ∧
      predictDisasters halfHeatCoefficients hotObservation =
        Except.ok [⟨"Severe Heat Wave", 0.75, "Severe",
          "Extended high temperature with humidity creates significant health danger"⟩] :=
  ⟨by with_unfolding_all rfl, by with_unfolding_all rfl⟩

/-- Claim C6, amended: only the flood risk function applies its family's
learning coefficient (multiplying the summed raw risk before the 0.95
clamp); the heat, storm, tornado and wildfire risk functions never read
their coefficients, so two coefficient stores that agree on the flood entry
produce identical predictions on every observation. -/
theorem c6_amended :
    ∀ (c c' : LearningCoefficients) (w : WeatherData), c.flood = c'.flood →
      predictDisasters c w = predictDisasters c' w ∧
      calculateFloodRisk c w = min 0.95 (floodBaseRisk w * c.flood) := by
  intro c c' w h
  constructor
  · simp only [predictDisasters, collectFindings, floodFindings, calculateFloodRisk, h]
  · rfl

/-- Witness for C6: the initial coefficients and the store with the
heat-wave coefficient halved agree on the flood entry, hence on the
predictions for the hot observation. -/
theorem c6_witness :
    predictDisasters initialCoefficients hotObservation =
        predictDisasters halfHeatCoefficients hotObservation ∧
      calculateFloodRisk initialCoefficients hotObservation =
        min 0.95 (floodBaseRisk hotObservation * initialCoefficients.flood) :=
  c6_amended initialCoefficients halfHeatCoefficients hotObservation rfl

/-- Claim C8: range validation clamps each of the seven ranged attributes to
its declared `[lo, hi]` interval — values below `lo` become `lo`, values
above `hi` become `hi`, in-range values are unchanged (`max lo (min hi v)`)
— and every attribute without a declared range passes through unchanged. -/
theorem c8_range_validation :
    ∀ w : WeatherData,
      (validateWeatherData w).temperature = max (-70) (min 60 w.temperature) ∧
      (validateWeatherData w).humidity = max 0 (min 100 w.humidity) ∧
      (validateWeatherData w).precipitation = max 0 (min 2000 w.precipitation) ∧
      (validateWeatherData w).wind_speed = max 0 (min 150 w.wind_speed) ∧
      (validateWeatherData w).pressure = max 870 (min 1085 w.pressure) ∧
      (validateWeatherData w).air_quality_index = max 0 (min 1000 w.air_quality_index) ∧
      (validateWeatherData w).seismic_activity = max 0 (min 10 w.seismic_activity) ∧
      (validateWeatherData w).snow_depth = w.snow_depth ∧
      (validateWeatherData w).temperature_gradient = w.temperature_gradient ∧
      (validateWeatherData w).consecutive_dry_days = w.consecutive_dry_days ∧
      (validateWeatherData w).soil_saturation = w.soil_saturation ∧
      (validateWeatherData w).temperature_change = w.temperature_change ∧
      (validateWeatherData w).snow_fall = w.snow_fall ∧
      (validateWeatherData w).coastal_proximity = w.coastal_proximity ∧
      (validateWeatherData w).volcanic_activity = w.volcanic_activity ∧
      (validateWeatherData w).pressure_change = w.pressure_change ∧
      (validateWeatherData w).cloud_height = w.cloud_height ∧
      (validateWeatherData w).dew_point = w.dew_point ∧
      (validateWeatherData w).stagnant_water_index = w.stagnant_water_index ∧
      (validateWeatherData w).urban_runoff_index = w.urban_runoff_index ∧
      (validateWeatherData w).temperature_profile = w.temperature_profile := by
  intro w
  refine ⟨?_, ?_, ?_, ?_, ?_, ?_, ?_, rfl, rfl, rfl, rfl, rfl, rfl, rfl, rfl, rfl,
    rfl, rfl, rfl, rfl, rfl⟩ <;>
    exact clampRange_eq _ _ _ (by norm_num)

/-- Claim C1, counterexample: the winter observation (temperature -10,
precipitation 25, wind speed 40) makes `predict_disasters` return a Blizzard
finding with probability 1.0 — the winter-storm severity sum
0.5 + 0.2 + 0.2 + 0.1 is used as the probability with no 0.95 ceiling. -/
theorem c1_counterexample :
    predictDisasters initialCoefficients winterObservation =
        Except.ok [⟨"Blizzard", 1, "Severe",
          "Significant winter precipitation with freezing temperatures creating hazardous conditions"⟩] ∧
      (0.95 : ℚ) < 1 :=
  ⟨by with_unfolding_all rfl, by norm_num⟩

/-- Claim C1, amended: every finding returned by `predict_disasters` has a
probability in [0, 1]; every finding other than the winter-storm/blizzard
finding has probability at most 0.95 (in particular the tsunami finding,
whose underwater-quake bonus is dead code because `underwater_quake` is not
a `WeatherData` field); the winter-storm/blizzard finding can reach 1.0. -/
theorem c1_probability_bounds :
    ∀ (c : LearningCoefficients) (w : WeatherData) (l : List DisasterPrediction),
      predictDisasters c w = Except.ok l →
      ∀ p ∈ l, 0 ≤ p.probability ∧ p.probability ≤ 1 ∧
        (p.disaster_type ≠ "Winter Storm" → p.disaster_type ≠ "Blizzard" →
          p.probability ≤ 0.95) := by
  intro c w l h p hp
  simp only [predictDisasters] at h
  split_ifs at h with hcr1 hcr2 hcoll
  · rw [Except.ok.injEq] at h
    subst h
    simp at hp
    subst hp
    exact ⟨by norm_num [noSignificantHazards], by norm_num [noSignificantHazards],
      fun _ _ => by norm_num [noSignificantHazards]⟩
  · rw [Except.ok.injEq] at h
    subst h
    simp only [collectFindings, List.mem_append, or_assoc] at hp
    rcases hp with h' | h' | h' | h' | h' | h' | h' | h' | h'
    · obtain ⟨⟨h0, h95⟩, _⟩ := floodFindings_mem h'
      exact ⟨h0, le_trans h95 (by norm_num), fun _ _ => h95⟩
    · obtain ⟨⟨h0, h95⟩, _⟩ := urbanFloodFindings_mem h'
      exact ⟨h0, le_trans h95 (by norm_num), fun _ _ => h95⟩
    · obtain ⟨⟨h0, h95⟩, _⟩ := heatFindings_mem h'
      exact ⟨h0, le_trans h95 (by norm_num), fun _ _ => h95⟩
    · obtain ⟨⟨h0, h95⟩, _⟩ := stormFindings_mem h'
      exact ⟨h0, le_trans h95 (by norm_num), fun _ _ => h95⟩
    · obtain ⟨⟨h0, h95⟩, _⟩ := tornadoFindings_mem h'
      exact ⟨h0, le_trans h95 (by norm_num), fun _ _ => h95⟩
    · obtain ⟨⟨h0, h1⟩, hty⟩ := winterFindings_mem h'
      refine ⟨h0, h1, fun hws hb => ?_⟩
      rcases hty with ht | ht
      · exact absurd ht hws
      · exact absurd ht hb
    · obtain ⟨⟨h0, h95⟩, _⟩ := quakeFindings_mem h'
      exact ⟨h0, le_trans h95 (by norm_num), fun _ _ => h95⟩
    · obtain ⟨⟨h0, h95⟩, _⟩ := wildfireFindings_mem h'
      exact ⟨h0, le_trans h95 (by norm_num), fun _ _ => h95⟩
    · obtain ⟨⟨h0, h95⟩, _⟩ := airQualityFindings_mem h'
      exact ⟨h0, le_trans h95 (by norm_num), fun _ _ => h95⟩

/-- Witness for C1: the no-hazard sentinel returned on the all-defaults
observation satisfies the amended bounds. -/
theorem c1_witness :
    0 ≤ noSignificantHazards.probability ∧ noSignificantHazards.probability ≤ 1 ∧
      (noSignificantHazards.disaster_type ≠ "Winter Storm" →
        noSignificantHazards.disaster_type ≠ "Blizzard" →
        noSignificantHazards.probability ≤ 0.95) :=
  c1_probability_bounds initialCoefficients {} [noSignificantHazards]
    (by with_unfolding_all rfl) noSignificantHazards (List.mem_singleton_self _)

/-- Claim C7: whenever `predict_disasters` returns, the returned list is
non-empty, and when no hazard cleared its threshold bands (the collected
findings are empty) the result is exactly the single
"No Significant Hazards" sentinel with probability 0.8 and severity
"Low". -/
theorem c7_nonempty_with_sentinel :
    ∀ (c : LearningCoefficients) (w : WeatherData) (l : List DisasterPrediction),
      predictDisasters c w = Except.ok l →
      l ≠ [] ∧
        (collectFindings c (validateWeatherData w) = [] → l = [noSignificantHazards]) := by
  intro c w l h
  simp only [predictDisasters] at h
  split_ifs at h with hcr1 hcr2 hcoll
  · rw [Except.ok.injEq] at h
    subst h
    exact ⟨by simp, fun _ => rfl⟩
  · rw [Except.ok.injEq] at h
    subst h
    exact ⟨hcoll, fun hcc => absurd hcc hcoll⟩

/-- Witness for C7: the all-defaults observation collects no findings, and
the returned list is exactly the sentinel. -/
theorem c7_witness :
    ([noSignificantHazards] : List DisasterPrediction) ≠ [] ∧
      (collectFindings initialCoefficients (validateWeatherData {}) = [] →
        [noSignificantHazards] = [noSignificantHazards]) :=
  c7_nonempty_with_sentinel initialCoefficients {} [noSignificantHazards]
    (by with_unfolding_all rfl)

/-- Claim C10: whenever `predict_disasters` returns a list containing a
"Tsunami" finding, the list also contains an earthquake finding (one whose
label ends in " Earthquake"): the tsunami block is nested inside the
earthquake trigger. -/
theorem c10_tsunami_implies_earthquake :
    ∀ (c : LearningCoefficients) (w : WeatherData) (l : List DisasterPrediction),
      predictDisasters c w = Except.ok l →
      (∃ p ∈ l, p.disaster_type = "Tsunami") →
      ∃ q ∈ l, ∃ sev, q.disaster_type = sev ++ " Earthquake" := by
  intro c w l h hex
  obtain ⟨p, hp, hty⟩ := hex
  simp only [predictDisasters] at h
  split_ifs at h with hcr1 hcr2 hcoll
  · rw [Except.ok.injEq] at h
    subst h
    simp at hp
    subst hp
    exact absurd hty (by decide)
  · rw [Except.ok.injEq] at h
    subst h
    simp only [collectFindings, List.mem_append, or_assoc] at hp
    rcases hp with h' | h' | h' | h' | h' | h' | h' | h' | h'
    · obtain ⟨_, hty2⟩ := floodFindings_mem h'
      rcases hty2 with ht | ht | ht <;> rw [ht] at hty <;> exact absurd hty (by decide)
    · rw [(urbanFloodFindings_mem h').2] at hty
      exact absurd hty (by decide)
    · obtain ⟨_, hty2⟩ := heatFindings_mem h'
      rcases hty2 with ht | ht | ht <;> rw [ht] at hty <;> exact absurd hty (by decide)
    · obtain ⟨_, hty2⟩ := stormFindings_mem h'
      rcases hty2 with ht | ht <;> rw [ht] at hty <;> exact absurd hty (by decide)
    · obtain ⟨_, hty2⟩ := tornadoFindings_mem h'
      rcases hty2 with ht | ht <;> rw [ht] at hty <;> exact absurd hty (by decide)
    · obtain ⟨_, hty2⟩ := winterFindings_mem h'
      rcases hty2 with ht | ht <;> rw [ht] at hty <;> exact absurd hty (by decide)
    · have h5 := mem_quakeFindings_seismic h'
      obtain ⟨q, hq, sev, hsev⟩ := quakeFindings_earthquake h5
      refine ⟨q, ?_, sev, hsev⟩
      simp only [collectFindings, List.mem_append, or_assoc]
      exact Or.inr (Or.inr (Or.inr (Or.inr (Or.inr (Or.inr (Or.inl hq))))))
    · obtain ⟨_, hty2⟩ := wildfireFindings_mem h'
      rcases hty2 with ht | ht | ht <;> rw [ht] at hty <;> exact absurd hty (by decide)
    · obtain ⟨_, hty2⟩ := airQualityFindings_mem h'
      rcases hty2 with ht | ht | ht <;> rw [ht] at hty <;> exact absurd hty (by decide)

/-- Witness for C10: the magnitude-7 coastal observation yields a Tsunami
finding, and indeed a Major Earthquake finding alongside it. -/
theorem c10_witness :
    ∃ q ∈ [(⟨"Major Earthquake", 0.7, "Major", "Seismic activity detected"⟩ :
        DisasterPrediction),
        ⟨"Tsunami", 0.5, "Moderate", "Seismic activity near coast creates tsunami risk"⟩],
      ∃ sev, q.disaster_type = sev ++ " Earthquake" :=
  c10_tsunami_implies_earthquake initialCoefficients quakeObservation _
    (by with_unfolding_all rfl)
    ⟨⟨"Tsunami", 0.5, "Moderate", "Seismic activity near coast creates tsunami risk"⟩,
      by simp, rfl⟩

set_option maxRecDepth 40000 in
/-- Claim C9: `correct_location_name` resolves the exact alias "bombay" to
"mumbai", resolves "pari" to "paris" ("pari" is itself a listed alias of
"paris"), returns "zzzqqq123" unchanged, and in general returns any input
unchanged when its cleaned form has no direct canonical/alias match and no
candidate reaches similarity 0.7. -/
theorem c9_location_resolution :
    correctLocationName "bombay" = "mumbai" ∧
    correctLocationName "pari" = "paris" ∧
    correctLocationName "zzzqqq123" = "zzzqqq123" ∧
    ∀ s : String, findDirectLocation (pyLowerStrip s) = none →
      (∀ cand ∈ allLocations, locationRatio cand (pyLowerStrip s) < 7 / 10) →
      correctLocationName s = s := by
  refine ⟨by with_unfolding_all rfl, by with_unfolding_all rfl, ?_, ?_⟩
  · with_unfolding_all rfl
  · intro s hdir hr
    simp only [correctLocationName]
    split_ifs with hs
    · rfl
    · rw [hdir, getCloseMatch_eq_none hr]

set_option maxRecDepth 40000 in
/-- Witness for C9: "zzzqqq123" has no direct match and no fuzzy candidate
at similarity 0.7, so it is returned unchanged. -/
theorem c9_witness :
    correctLocationName "zzzqqq123" = "zzzqqq123" :=
  c9_location_resolution.2.2.2 "zzzqqq123" (by with_unfolding_all rfl)
    (by with_unfolding_all decide)

end RescueX
